import Mathlib

/-!
# Verification of the Scout categorization engine

Shallow embedding of `src/flow_components/scout_categorization.py`:
the environmental context classifier (`process_global_context`), the
personal state classifier (`transform_user_state`), the relationship
friction analyzer (`analyze_relationships` / `calculate_proximity_category`)
and the opportunity curator (`curate_opportunities`), together with proofs
of the behavioural properties claimed for them.

Modelling conventions:
* Python strings are `String`; Python `x in s` substring tests are
  `strContains` (a structural re-implementation, so that it reduces in the
  kernel); `str.lower()` / `str.upper()` are `strToLower` / `strToUpper`
  (ASCII case mapping, as in the source data).
* Python floats are `ℚ`.  The source computes
  `dist = sqrt(dlat^2 + dlon^2) * 111` and compares it with `0.2`, `1.0`,
  `2.0`; since `sqrt` is monotone and everything is nonnegative,
  `dist < c ↔ dist^2 < c^2`, so the embedding compares the exact rational
  squared distance against the squared thresholds.
* `dict.get(k, d)` with a default is an `Option` field plus `getD`;
  a missing or empty (falsy) location dict is `none`.
* Python dicts keyed by user id are association lists with
  insert-or-overwrite (`dict_insert`), which preserves insertion order
  exactly as CPython dicts do.
* `datetime.fromtimestamp` uses the host timezone; the embedding derives the
  hour as `ts / 3600 % 24` (UTC).  No claim depends on the temporal phase.
-/

namespace Scout

/-! ## String helpers (structural, kernel-reducible) -/

/-- Does `pat` occur at the head of `hay`? (`list.startswith`). -/
def charsStartWith : List Char → List Char → Bool
  | _, [] => true
  | [], _ :: _ => false
  | a :: as, b :: bs => a = b && charsStartWith as bs

/-- Does `pat` occur anywhere in `hay`? -/
def charsContain : List Char → List Char → Bool
  | [], pat => charsStartWith [] pat
  | a :: rest, pat => charsStartWith (a :: rest) pat || charsContain rest pat

/-- Python `pat in s` substring test. -/
def strContains (s pat : String) : Bool :=
  charsContain s.data pat.data

/-- Python `s.lower()` (ASCII). -/
def strToLower (s : String) : String :=
  String.mk (s.data.map Char.toLower)

/-- Python `s.upper()` (ASCII). -/
def strToUpper (s : String) : String :=
  String.mk (s.data.map Char.toUpper)

/-- Split a character list at every occurrence of `c`
(Python `s.split(c)` for a one-character separator). -/
def splitOnChar (c : Char) : List Char → List (List Char)
  | [] => [[]]
  | a :: rest =>
    let r := splitOnChar c rest
    if a = c then [] :: r
    else
      match r with
      | [] => [[a]]
      | h :: t => (a :: h) :: t

/-- Python `s.strip(")")`: remove `)` characters from both ends. -/
def stripCloseParen (l : List Char) : List Char :=
  ((l.dropWhile (fun c => c = Char.ofNat 41)).reverse.dropWhile
    (fun c => c = Char.ofNat 41)).reverse

/-- Python `s.split()[0]`: first whitespace-separated token.
(The source only reaches this with a non-blank string, where the two agree;
on a blank string the model returns `""`.) -/
def firstToken (s : String) : String :=
  String.mk ((s.data.dropWhile Char.isWhitespace).takeWhile
    (fun c => !c.isWhitespace))

/-- Python `d[k] = v` on an insertion-ordered dict represented as an
association list: overwrite in place if the key exists, else append. -/
def dict_insert (d : List (String × String)) (k v : String) :
    List (String × String) :=
  if d.any (fun p => p.1 == k) then
    d.map (fun p => if p.1 = k then (k, v) else p)
  else
    d ++ [(k, v)]

/-! ## Data model -/

/-- A `current_location` dict: `{name, lat, lon}`.  Missing `lat`/`lon` keys
default to `0` in the source (`loc.get("lat", 0)`), which is modelled by
storing the defaulted values; a missing `name` is `""`. -/
structure Location where
  name : String
  lat : ℚ
  lon : ℚ
deriving DecidableEq

/-- A directed social-graph edge, from a user's `social_graph_snapshot`. -/
structure Relation where
  target_id : String
  status : String
  relation : String
deriving DecidableEq

/-- A raw user entry of `users_sentry_state`: the fields read by
`transform_user_state` and `analyze_relationships`.  `availability` and
`stress_level` come from `sentry_analysis` (a missing value behaves as a
string matching no branch).  `current_location = none` models an absent or
empty (falsy) location dict. -/
structure UserSnapshot where
  user_id : String
  availability : String
  stress_level : String
  risk_flags : List String
  current_location : Option Location
  social_graph_snapshot : List Relation
deriving DecidableEq

/-- The categorical output of `process_global_context`. -/
structure GlobalContext where
  outdoor_viability : String
  transit_friction : String
  temporal_phase : String
  implication : String
deriving DecidableEq

/-- The raw `environment_feed` fields read by `process_global_context`,
each `Option` so that the source's `get(..., default)` chain is explicit. -/
structure EnvFeed where
  weather_main : Option String
  temp : Option ℚ
  travelTimeIndex : Option ℚ
  dt : Option Nat
deriving DecidableEq

/-- The output of `transform_user_state` (one `user_cluster_map` entry). -/
structure UserClassification where
  user_id : String
  availability_status : String
  wellness_need : String
  location_context : String
  neighborhood : String
deriving DecidableEq

/-- One relationship friction/opportunity record. -/
structure FrictionRecord where
  source_user : String
  target_user : String
  relationship_type : String
  connection_health : String
  proximity_opportunity : String
  scout_hint : String
deriving DecidableEq

/-- An `events_api` item (Schema.org shape): the fields read by
`curate_opportunities`.  `location_name` is `location.name`, `none` when
absent (the source defaults it to `"Unknown Area"`). -/
structure EventItem where
  identifier : String
  name : String
  schema_type : String
  description : String
  location_name : Option String
deriving DecidableEq

/-- One curated opportunity record.  `reason = none` models the absence of
the `reason` field. -/
structure CuratedOpportunity where
  event_id : String
  title : String
  activity_type : String
  environment_match : String
  location_context : String
  suitability : List (String × String)
  reason : Option String
deriving DecidableEq

/-! ## Configuration & thresholds (the `THRESHOLDS` table) -/

def THRESHOLDS_traffic_high : ℚ := 2

def THRESHOLDS_traffic_moderate : ℚ := 7 / 5

def THRESHOLDS_weather_min_temp_outdoor : ℚ := 15

def THRESHOLDS_weather_bad_conditions : List String :=
  ["Rain", "Snow", "Thunderstorm", "Drizzle"]

/-! ## Environmental context classifier (`process_global_context`) -/

/-- The weather-abstraction block of `process_global_context`. -/
def outdoor_viability_of (weather_main : String) (temp : ℚ) : String :=
  if weather_main ∈ THRESHOLDS_weather_bad_conditions then "INDOOR_ONLY"
  else if temp < THRESHOLDS_weather_min_temp_outdoor then "VIABLE_WITH_GEAR"
  else "OPTIMAL"

/-- The traffic-abstraction block of `process_global_context`. -/
def transit_friction_of (traffic_idx : ℚ) : String :=
  if traffic_idx ≥ THRESHOLDS_traffic_high then "HIGH_FRICTION"
  else if traffic_idx ≥ THRESHOLDS_traffic_moderate then "MODERATE_DELAY"
  else "LOW_FRICTION"

/-- The time-abstraction block of `process_global_context`.  The source
takes the hour via `datetime.fromtimestamp`; modelled as UTC hours. -/
def temporal_phase_of (dt : Option Nat) : String :=
  match dt with
  | some ts =>
    let hour := ts / 3600 % 24
    if 9 ≤ hour ∧ hour < 17 then "WORK_HOURS"
    else if 17 ≤ hour ∧ hour < 19 then "EVENING_TRANSITION"
    else if 19 ≤ hour ∧ hour < 22 then "PRIME_SOCIAL_TIME"
    else "LATE_NIGHT"
  | none => "UNKNOWN"

/-- `generate_implication`: natural-language hint decision table. -/
def generate_implication (outdoor friction : String) : String :=
  if friction = "HIGH_FRICTION" then
    "Prioritize digital connections, home-based activities, or very local (walking distance) indoor events. Discourage cross-town travel."
  else if outdoor = "INDOOR_ONLY" then
    "Focus on indoor venues. Filter out parks and walking groups."
  else
    "Conditions optimal. Prioritize outdoor social friction reduction."

/-- `process_global_context`: abstracts raw weather/traffic/time into
categorical tags, with the source's `get` defaults
(`"Clear"`, `20`, `1.0`). -/
def process_global_context (env : EnvFeed) : GlobalContext :=
  let weather_main := env.weather_main.getD "Clear"
  let temp := env.temp.getD 20
  let outdoor := outdoor_viability_of weather_main temp
  let traffic_idx := env.travelTimeIndex.getD 1
  let friction := transit_friction_of traffic_idx
  let phase := temporal_phase_of env.dt
  { outdoor_viability := outdoor
    transit_friction := friction
    temporal_phase := phase
    implication := generate_implication outdoor friction }

/-! ## Personal state classifier (`transform_user_state`) -/

/-- The availability-mapping block of `transform_user_state`. -/
def availability_status_of (avail_raw : String) : String :=
  if avail_raw = "FREE" then "AVAILABLE_NOW"
  else if avail_raw ∈ ["BUSY_BUT_ENDING_SOON", "TRANSITIONING"] then "AVAILABLE_SOON"
  else "BUSY_UNAVAILABLE"

/-- The wellness-need-mapping block of `transform_user_state`. -/
def wellness_need_of (stress : String) (risks : List String) : String :=
  if "ISOLATION_RISK" ∈ risks then "SOCIAL_CONNECTION"
  else if stress ∈ ["HIGH", "CRITICAL_HIGH"] then "REST_RECOVERY"
  else if stress ∈ ["ELEVATED", "MODERATE"] then "STRESS_RELIEF"
  else if stress = "FATIGUED" then "REST_RECOVERY"
  else "MAINTENANCE"

/-- The location-context-mapping block of `transform_user_state`
(takes the already lower-cased location name). -/
def location_context_of (loc_name_lower : String) : String :=
  if strContains loc_name_lower "home" then "HOME_BASE"
  else if strContains loc_name_lower "office" ∨ strContains loc_name_lower "work" then
    "WORK_OFFICE"
  else if strContains loc_name_lower "transit" ∨ strContains loc_name_lower "commuting" then
    "IN_TRANSIT"
  else if ["cafe", "coffee", "park", "gym", "restaurant"].any
      (fun place => strContains loc_name_lower place) then
    "THIRD_PLACE"
  else "HOME_BASE"

/-- The neighborhood-extraction block of `transform_user_state`. -/
def neighborhood_of (loc_name_full : String) (loc_cat : String) : String :=
  let loc_name_lower := strToLower loc_name_full
  if strContains loc_name_full "(" then
    String.mk (stripCloseParen
      ((splitOnChar (Char.ofNat 40) loc_name_full.data).getLastD []))
  else if strContains loc_name_lower "transit" ∨ strContains loc_name_lower "commuting" then
    if strContains loc_name_lower "mittlerer" ∨ strContains loc_name_lower "ring" then
      "Transit_Corridor_East"
    else "In_Transit"
  else if loc_cat = "THIRD_PLACE" then
    if strContains loc_name_lower "lost weekend" then "Schwabing-West"
    else if loc_name_full ≠ "" then firstToken loc_name_full
    else "Unknown"
  else loc_name_full

/-- `transform_user_state`: maps a raw user snapshot to Scout's high-level
buckets. -/
def transform_user_state (user : UserSnapshot) : UserClassification :=
  let status := availability_status_of user.availability
  let need := wellness_need_of user.stress_level user.risk_flags
  let loc_name_full := (user.current_location.map Location.name).getD ""
  let loc_name_lower := strToLower loc_name_full
  let loc_cat := location_context_of loc_name_lower
  { user_id := user.user_id
    availability_status := status
    wellness_need := need
    location_context := loc_cat
    neighborhood := neighborhood_of loc_name_full loc_cat }

/-! ## Relationship friction analyzer -/

/-- `calculate_proximity_category`: distance bucketing.  The source computes
`dist = sqrt(dlat^2 + dlon^2) * 111` and tests `dist < 0.2 / 1.0 / 2.0`;
since `sqrt` is monotone on nonnegative reals this is equivalent to
comparing the squared distance with `0.04 / 1 / 4`, which is what the
embedding does, exactly, in `ℚ`. -/
def calculate_proximity_category (loc_a loc_b : Option Location) : String :=
  match loc_a, loc_b with
  | some a, some b =>
    let dist_sq := ((b.lat - a.lat) * (b.lat - a.lat)
        + (b.lon - a.lon) * (b.lon - a.lon)) * (111 * 111)
    if dist_sq < 1 / 25 then "CO_LOCATED"
    else if dist_sq < 1 then "WALKING_DISTANCE"
    else if dist_sq < 4 then "SAME_DISTRICT"
    else "DISTANT"
  | _, _ => "UNKNOWN"

/-- `tuple(sorted([a, b]))`: the canonical unordered pair key. -/
def pair_key (a b : String) : String × String :=
  if a < b then (a, b) else (b, a)

/-- Lines 212-214: fold kinship labels into `PARENT_CHILD`, pass everything
else through upper-cased. -/
def canonicalize_relation_kind (s : String) : String :=
  let rel_type := strToUpper s
  if rel_type ∈ ["SON", "DAUGHTER", "FATHER", "MOTHER"] then "PARENT_CHILD"
  else rel_type

/-- The `user_locs` dict of `analyze_relationships`
(`{u["user_id"]: u["current_location"] for u in users}`, so a duplicated id
keeps the last entry) composed with `.get`: `none` when the id is absent or
its location is falsy. -/
def user_locs_of (users : List UserSnapshot) (uid : String) : Option Location :=
  ((users.filter (fun u => decide (u.user_id = uid))).getLast?).bind
    UserSnapshot.current_location

/-- The per-relation body of the `analyze_relationships` loop
(lines 196-235): proximity computation, then the negative
(`CRITICAL_DISCONNECT`) and positive (`GOOD` + walking distance) triggers;
`none` when no record is emitted. -/
def mkRecord (gc : GlobalContext) (locs : String → Option Location)
    (e : String × Relation) : Option FrictionRecord :=
  let prox := calculate_proximity_category (locs e.1) (locs e.2.target_id)
  if e.2.status = "CRITICAL_DISCONNECT" then
    let hint :=
      if gc.transit_friction = "HIGH_FRICTION" ∧ prox = "DISTANT" then
        "High Friction Travel + Critical Disconnect = Suggest Phone/Video Call."
      else if prox = "WALKING_DISTANCE" then
        "Nearby + Disconnected = Suggest immediate meetup."
      else "Critical Disconnect detected."
    some
      { source_user := e.1
        target_user := e.2.target_id
        relationship_type := canonicalize_relation_kind e.2.relation
        connection_health := "CRITICAL_DISCONNECT"
        proximity_opportunity := prox
        scout_hint := hint }
  else if e.2.status = "GOOD" then
    if prox = "WALKING_DISTANCE" then
      some
        { source_user := e.1
          target_user := e.2.target_id
          relationship_type := strToUpper e.2.relation
          connection_health := "HEALTHY"
          proximity_opportunity := "WALKING_DISTANCE"
          scout_hint := "Healthy connection + nearby + \x27"
            ++ gc.outdoor_viability
            ++ "\x27 weather = Suggest local indoor hangout." }
    else none
  else none

/-- The flattened iteration order of the nested loops of
`analyze_relationships`: each user's outgoing relations, tagged with the
source user id. -/
def edges_of (users : List UserSnapshot) : List (String × Relation) :=
  users.flatMap (fun u => u.social_graph_snapshot.map (fun r => (u.user_id, r)))

/-- The loop of `analyze_relationships` with its `seen_pairs` set:
skip an edge whose canonical pair key was already seen, otherwise mark the
key seen and emit whatever `mkRecord` produces. -/
def analyze_aux (gc : GlobalContext) (locs : String → Option Location) :
    List (String × Relation) → List (String × String) → List FrictionRecord
  | [], _ => []
  | e :: rest, seen =>
    let key := pair_key e.1 e.2.target_id
    if key ∈ seen then analyze_aux gc locs rest seen
    else
      match mkRecord gc locs e with
      | some r => r :: analyze_aux gc locs rest (key :: seen)
      | none => analyze_aux gc locs rest (key :: seen)

/-- `analyze_relationships`: scans the social graphs for friction points. -/
def analyze_relationships (users : List UserSnapshot) (gc : GlobalContext) :
    List FrictionRecord :=
  analyze_aux gc (user_locs_of users) (edges_of users) []

/-! ## Opportunity curator (`curate_opportunities`) -/

/-- `map_activity_category`: Schema.org event types to the Scout schema. -/
def map_activity_category (event_type : String) : String :=
  if event_type = "SocialEvent" then "SOCIAL_GATHERING"
  else if event_type = "SportsEvent" then "ACTIVE_PHYSICAL"
  else if event_type = "MusicEvent" then "CULTURAL_PASSIVE"
  else if event_type = "TheaterEvent" then "CULTURAL_PASSIVE"
  else if event_type = "EducationEvent" then "COMMUNITY_SUPPORT"
  else if event_type = "VolunteerEvent" then "COMMUNITY_SUPPORT"
  else "SOCIAL_GATHERING"

/-- The suitability-scoring body of the `curate_opportunities` user loop
(lines 302-327): one score per user for a given event. -/
def score_user (event : EventItem) (user : UserClassification) : String :=
  if event.schema_type = "SportsEvent" then
    if user.user_id = "user_01_student" ∧ user.wellness_need = "STRESS_RELIEF" then
      "HIGH"
    else if user.wellness_need = "STRESS_RELIEF" then "MEDIUM"
    else "LOW"
  else if event.schema_type = "SocialEvent" then
    if strContains (strToLower event.description) "expat"
        ∧ user.user_id = "user_03_expat" then "HIGH"
    else if strContains (strToLower event.name) "english"
        ∧ user.user_id = "user_03_expat" then "HIGH"
    else if user.user_id = "user_01_student" then "MEDIUM"
    else if user.wellness_need = "SOCIAL_CONNECTION" then "MEDIUM"
    else "LOW"
  else if event.schema_type = "MusicEvent" then
    if user.user_id = "user_02_retired" then "MEDIUM" else "LOW"
  else "LOW"

/-- The `suitability` dict after the user loop (before LOW-filtering). -/
def build_suitability (event : EventItem) (users_map : List UserClassification) :
    List (String × String) :=
  users_map.foldl (fun d u => dict_insert d u.user_id (score_user event u)) []

/-- The per-event body of `curate_opportunities`: environment check,
suitability scoring, LOW-filtering, record assembly. -/
def curate_one (gc : GlobalContext) (users_map : List UserClassification)
    (event : EventItem) : CuratedOpportunity :=
  let location_name := event.location_name.getD "Unknown Area"
  let event_text := strToLower
    (event.name ++ " " ++ event.description ++ " " ++ event.schema_type)
  let is_outdoor := ["walking", "park", "outdoor", "garden", "hiking", "nature"].any
    (fun keyword => strContains event_text keyword)
  let mismatch := gc.outdoor_viability = "INDOOR_ONLY" ∧ is_outdoor = true
  let filtered_suitability :=
    (build_suitability event users_map).filter (fun p => decide (p.2 ≠ "LOW"))
  { event_id := event.identifier
    title := event.name
    activity_type := map_activity_category event.schema_type
    environment_match :=
      if mismatch then "MISMATCH" else "MATCHES_CURRENT_CONDITIONS"
    location_context := location_name
    suitability := filtered_suitability
    reason := if mismatch then some "Outdoor event during Rain" else none }

/-- `curate_opportunities`: filters events against the environment and
scores per-user suitability. -/
def curate_opportunities (events : List EventItem) (gc : GlobalContext)
    (users_map : List UserClassification) : List CuratedOpportunity :=
  events.map (curate_one gc users_map)

/-! ## Helper lemmas -/

/-- A record emitted for an edge carries that edge's source and target ids. -/
theorem mkRecord_source_target {gc : GlobalContext} {locs : String → Option Location}
    {e : String × Relation} {r : FrictionRecord} (h : mkRecord gc locs e = some r) :
    r.source_user = e.1 ∧ r.target_user = e.2.target_id := by
  simp only [mkRecord] at h
  split at h
  · obtain rfl := Option.some.inj h
    exact ⟨rfl, rfl⟩
  · split at h
    · split at h
      · obtain rfl := Option.some.inj h
        exact ⟨rfl, rfl⟩
      · exact absurd h (by simp)
    · exact absurd h (by simp)

/-! ## Claim theorems -/

/-- **C3**: a relation processed by the `analyze_relationships` loop body
emits a record exactly when its status is `CRITICAL_DISCONNECT` (at any
proximity), or its status is `GOOD` and the computed proximity is
`WALKING_DISTANCE`; any other status, and `GOOD` at any other proximity,
produce no record. -/
theorem record_emission_condition (gc : GlobalContext)
    (locs : String → Option Location) (e : String × Relation) :
    (∃ r, mkRecord gc locs e = some r) ↔
      (e.2.status = "CRITICAL_DISCONNECT"
        ∨ (e.2.status = "GOOD"
            ∧ calculate_proximity_category (locs e.1) (locs e.2.target_id)
                = "WALKING_DISTANCE")) := by
  simp only [mkRecord]
  by_cases h1 : e.2.status = "CRITICAL_DISCONNECT"
  · simp [h1]
  · by_cases h2 : e.2.status = "GOOD"
    · by_cases h3 : calculate_proximity_category (locs e.1) (locs e.2.target_id)
          = "WALKING_DISTANCE"
      · simp [h1, h2, h3]
      · simp [h1, h2, h3]
    · simp [h1, h2]

/-- **C4**: the travel-time index is bucketed with upper-inclusive
boundaries: `≥ 2.0` gives `HIGH_FRICTION`, `1.4 ≤ idx < 2.0` gives
`MODERATE_DELAY`, `< 1.4` gives `LOW_FRICTION`. -/
theorem transit_friction_thresholds (m : Option String) (t : Option ℚ)
    (d : Option Nat) (idx : ℚ) :
    (2 ≤ idx →
      (process_global_context ⟨m, t, some idx, d⟩).transit_friction = "HIGH_FRICTION")
  ∧ (7 / 5 ≤ idx → idx < 2 →
      (process_global_context ⟨m, t, some idx, d⟩).transit_friction = "MODERATE_DELAY")
  ∧ (idx < 7 / 5 →
      (process_global_context ⟨m, t, some idx, d⟩).transit_friction = "LOW_FRICTION") := by
  have e : (process_global_context ⟨m, t, some idx, d⟩).transit_friction
      = transit_friction_of idx := rfl
  refine ⟨fun h => ?_, fun h1 h2 => ?_, fun h => ?_⟩ <;>
    rw [e] <;> unfold transit_friction_of THRESHOLDS_traffic_high THRESHOLDS_traffic_moderate
  · rw [if_pos h]
  · rw [if_neg (not_le.mpr h2), if_pos h1]
  · rw [if_neg (not_le.mpr (h.trans (by norm_num))), if_neg (not_le.mpr h)]

/-- Witness for C4 at the boundary values `2`, `7/5 = 1.4` and `1`:
both boundaries land in the upper (named) bucket. -/
theorem transit_friction_thresholds_witness :
    ((2 : ℚ) ≤ 2
      ∧ (process_global_context ⟨none, none, some 2, none⟩).transit_friction
          = "HIGH_FRICTION")
  ∧ ((7 / 5 : ℚ) ≤ 7 / 5 ∧ (7 / 5 : ℚ) < 2
      ∧ (process_global_context ⟨none, none, some (7 / 5), none⟩).transit_friction
          = "MODERATE_DELAY")
  ∧ ((1 : ℚ) < 7 / 5
      ∧ (process_global_context ⟨none, none, some 1, none⟩).transit_friction
          = "LOW_FRICTION") :=
  ⟨⟨le_refl 2, (transit_friction_thresholds none none none 2).1 (le_refl 2)⟩,
   ⟨le_refl (7 / 5), by norm_num,
    (transit_friction_thresholds none none none (7 / 5)).2.1 (le_refl (7 / 5)) (by norm_num)⟩,
   ⟨by norm_num, (transit_friction_thresholds none none none 1).2.2 (by norm_num)⟩⟩

/-- **C5**: an adverse weather condition (`Rain`, `Snow`, `Thunderstorm`,
`Drizzle`) forces `outdoor_viability = INDOOR_ONLY` whatever the
temperature (and whatever the rest of the feed): the condition check comes
first and dominates the temperature check. -/
theorem adverse_weather_indoor_only (m : String)
    (h : m ∈ THRESHOLDS_weather_bad_conditions) (t : Option ℚ)
    (idx : Option ℚ) (d : Option Nat) :
    (process_global_context ⟨some m, t, idx, d⟩).outdoor_viability = "INDOOR_ONLY" := by
  have e : (process_global_context ⟨some m, t, idx, d⟩).outdoor_viability
      = outdoor_viability_of m (t.getD 20) := rfl
  rw [e]
  unfold outdoor_viability_of
  rw [if_pos h]

/-- Witness for C5: `Rain` at a balmy `30` degrees is still `INDOOR_ONLY`. -/
theorem adverse_weather_indoor_only_witness :
    "Rain" ∈ THRESHOLDS_weather_bad_conditions
  ∧ (process_global_context ⟨some "Rain", some 30, none, none⟩).outdoor_viability
      = "INDOOR_ONLY" :=
  ⟨by decide, adverse_weather_indoor_only "Rain" (by decide) (some 30) none none⟩

/-- **C7**: the wellness-need classification is priority-ordered: an
`ISOLATION_RISK` flag yields `SOCIAL_CONNECTION` regardless of stress;
otherwise `HIGH`/`CRITICAL_HIGH` yield `REST_RECOVERY`,
`ELEVATED`/`MODERATE` yield `STRESS_RELIEF`, `FATIGUED` also yields
`REST_RECOVERY` (the overlapping tie is preserved), and any other stress
value yields `MAINTENANCE`. -/
theorem wellness_need_priority (u : UserSnapshot) :
    ("ISOLATION_RISK" ∈ u.risk_flags →
        (transform_user_state u).wellness_need = "SOCIAL_CONNECTION")
  ∧ ("ISOLATION_RISK" ∉ u.risk_flags →
      (u.stress_level ∈ ["HIGH", "CRITICAL_HIGH"] →
          (transform_user_state u).wellness_need = "REST_RECOVERY")
    ∧ (u.stress_level ∈ ["ELEVATED", "MODERATE"] →
          (transform_user_state u).wellness_need = "STRESS_RELIEF")
    ∧ (u.stress_level = "FATIGUED" →
          (transform_user_state u).wellness_need = "REST_RECOVERY")
    ∧ (u.stress_level ∉ ["HIGH", "CRITICAL_HIGH", "ELEVATED", "MODERATE", "FATIGUED"] →
          (transform_user_state u).wellness_need = "MAINTENANCE")) := by
  have e : (transform_user_state u).wellness_need
      = wellness_need_of u.stress_level u.risk_flags := rfl
  constructor
  · intro h
    rw [e]
    unfold wellness_need_of
    rw [if_pos h]
  · intro hiso
    refine ⟨fun h => ?_, fun h => ?_, fun h => ?_, fun h => ?_⟩
    · rw [e]
      unfold wellness_need_of
      rw [if_neg hiso, if_pos h]
    · simp only [List.mem_cons, List.not_mem_nil, or_false] at h
      rcases h with h | h <;> rw [e] <;> unfold wellness_need_of <;>
        rw [if_neg hiso, h] <;> decide
    · rw [e]
      unfold wellness_need_of
      rw [if_neg hiso, h]
      decide
    · simp only [List.mem_cons, List.not_mem_nil, or_false, not_or] at h
      obtain ⟨h1, h2, h3, h4, h5⟩ := h
      rw [e]
      unfold wellness_need_of
      rw [if_neg hiso, if_neg (by simp [h1, h2]), if_neg (by simp [h3, h4]), if_neg h5]

/-- Witness for C7: a `FATIGUED` user with no risk flags gets
`REST_RECOVERY` (the `FATIGUED` leg of the overlapping tie). -/
theorem wellness_need_priority_witness :
    "ISOLATION_RISK" ∉ ([] : List String)
  ∧ (transform_user_state
        ⟨"u_w7", "FREE", "FATIGUED", [], none, []⟩).wellness_need = "REST_RECOVERY" :=
  ⟨by decide,
   ((wellness_need_priority ⟨"u_w7", "FREE", "FATIGUED", [], none, []⟩).2
      (by decide)).2.2.1 rfl⟩

/-- **C10**: when the lower-cased location name contains none of the
recognized keywords (`home`; `office`/`work`; `transit`/`commuting`;
`cafe`/`coffee`/`park`/`gym`/`restaurant`), `transform_user_state` assigns
`location_context = HOME_BASE` — the same category as a name that
explicitly contains `home`. -/
theorem unrecognized_location_home_base (u : UserSnapshot) :
    let lname := strToLower ((u.current_location.map Location.name).getD "")
    (strContains lname "home" = false →
      strContains lname "office" = false →
      strContains lname "work" = false →
      strContains lname "transit" = false →
      strContains lname "commuting" = false →
      strContains lname "cafe" = false →
      strContains lname "coffee" = false →
      strContains lname "park" = false →
      strContains lname "gym" = false →
      strContains lname "restaurant" = false →
      (transform_user_state u).location_context = "HOME_BASE")
  ∧ (strContains lname "home" = true →
      (transform_user_state u).location_context = "HOME_BASE") := by
  intro lname
  have e : (transform_user_state u).location_context = location_context_of lname := rfl
  constructor
  · intro h1 h2 h3 h4 h5 h6 h7 h8 h9 h10
    rw [e]
    simp [location_context_of, h1, h2, h3, h4, h5, h6, h7, h8, h9, h10]
  · intro h
    rw [e]
    simp [location_context_of, h]

/-- Witness for C10: the location name `Bibliothek` matches no keyword and
falls back to `HOME_BASE`. -/
theorem unrecognized_location_home_base_witness :
    strContains (strToLower "Bibliothek") "home" = false
  ∧ (transform_user_state
        ⟨"u_w10", "FREE", "LOW", [], some ⟨"Bibliothek", 0, 0⟩, []⟩).location_context
      = "HOME_BASE" :=
  ⟨by decide,
   (unrecognized_location_home_base
      ⟨"u_w10", "FREE", "LOW", [], some ⟨"Bibliothek", 0, 0⟩, []⟩).1
     (by decide) (by decide) (by decide) (by decide) (by decide) (by decide)
     (by decide) (by decide) (by decide) (by decide)⟩

/-- Every record produced with `seen_pairs = seen` has a pair key outside
`seen`. -/
theorem analyze_aux_key_not_seen (gc : GlobalContext)
    (locs : String → Option Location) :
    ∀ (es : List (String × Relation)) (seen : List (String × String))
      (r : FrictionRecord), r ∈ analyze_aux gc locs es seen →
      pair_key r.source_user r.target_user ∉ seen := by
  intro es
  induction es with
  | nil => intro seen r h; simp [analyze_aux] at h
  | cons e rest ih =>
    intro seen r h
    simp only [analyze_aux] at h
    by_cases hk : pair_key e.1 e.2.target_id ∈ seen
    · rw [if_pos hk] at h
      exact ih seen r h
    · rw [if_neg hk] at h
      cases hm : mkRecord gc locs e with
      | some r0 =>
        simp only [hm] at h
        rcases List.mem_cons.mp h with rfl | h'
        · obtain ⟨h1, h2⟩ := mkRecord_source_target hm
          rw [h1, h2]
          exact hk
        · have h3 := ih _ r h'
          exact fun hc => h3 (List.mem_cons_of_mem _ hc)
      | none =>
        simp only [hm] at h
        have h3 := ih _ r h
        exact fun hc => h3 (List.mem_cons_of_mem _ hc)

/-- The records produced by the dedup loop have pairwise distinct
unordered pair keys. -/
theorem analyze_aux_pairwise (gc : GlobalContext)
    (locs : String → Option Location) :
    ∀ (es : List (String × Relation)) (seen : List (String × String)),
      (analyze_aux gc locs es seen).Pairwise
        (fun r₁ r₂ => pair_key r₁.source_user r₁.target_user
          ≠ pair_key r₂.source_user r₂.target_user) := by
  intro es
  induction es with
  | nil => intro seen; simp [analyze_aux]
  | cons e rest ih =>
    intro seen
    simp only [analyze_aux]
    by_cases hk : pair_key e.1 e.2.target_id ∈ seen
    · rw [if_pos hk]
      exact ih seen
    · rw [if_neg hk]
      cases hm : mkRecord gc locs e with
      | none => exact ih _
      | some r0 =>
        refine List.Pairwise.cons ?_ (ih _)
        intro r hr
        obtain ⟨h1, h2⟩ := mkRecord_source_target hm
        rw [h1, h2]
        have h3 := analyze_aux_key_not_seen gc locs rest _ r hr
        intro hc
        exact h3 (by rw [← hc]; exact List.mem_cons_self _ _)

/-- Every record produced by the dedup loop comes from the first edge of
the list (among edges whose key is not already in `seen`) that bears its
unordered pair key: the first-seen direction determines the record. -/
theorem analyze_aux_first_seen (gc : GlobalContext)
    (locs : String → Option Location) :
    ∀ (es : List (String × Relation)) (seen : List (String × String))
      (r : FrictionRecord), r ∈ analyze_aux gc locs es seen →
      ∃ pre e post, es = pre ++ e :: post
        ∧ pair_key e.1 e.2.target_id ∉ seen
        ∧ pair_key e.1 e.2.target_id ∉ pre.map (fun x => pair_key x.1 x.2.target_id)
        ∧ mkRecord gc locs e = some r := by
  intro es
  induction es with
  | nil => intro seen r h; simp [analyze_aux] at h
  | cons e rest ih =>
    intro seen r h
    simp only [analyze_aux] at h
    by_cases hk : pair_key e.1 e.2.target_id ∈ seen
    · rw [if_pos hk] at h
      obtain ⟨pre, e', post, hsplit, hs, hp, hm⟩ := ih seen r h
      refine ⟨e :: pre, e', post, by rw [hsplit]; rfl, hs, ?_, hm⟩
      simp only [List.map_cons, List.mem_cons, not_or]
      exact ⟨fun hc => hs (hc ▸ hk), hp⟩
    · rw [if_neg hk] at h
      cases hm : mkRecord gc locs e with
      | some r0 =>
        simp only [hm] at h
        rcases List.mem_cons.mp h with rfl | h'
        · exact ⟨[], e, rest, rfl, hk, by simp, hm⟩
        · obtain ⟨pre, e', post, hsplit, hs, hp, hm'⟩ := ih _ r h'
          have hs' : pair_key e'.1 e'.2.target_id ∉ seen :=
            fun hc => hs (List.mem_cons_of_mem _ hc)
          have hne : pair_key e'.1 e'.2.target_id ≠ pair_key e.1 e.2.target_id :=
            fun hc => hs (by rw [hc]; exact List.mem_cons_self _ _)
          refine ⟨e :: pre, e', post, by rw [hsplit]; rfl, hs', ?_, hm'⟩
          simp only [List.map_cons, List.mem_cons, not_or]
          exact ⟨hne, hp⟩
      | none =>
        simp only [hm] at h
        obtain ⟨pre, e', post, hsplit, hs, hp, hm'⟩ := ih _ r h
        have hs' : pair_key e'.1 e'.2.target_id ∉ seen :=
          fun hc => hs (List.mem_cons_of_mem _ hc)
        have hne : pair_key e'.1 e'.2.target_id ≠ pair_key e.1 e.2.target_id :=
          fun hc => hs (by rw [hc]; exact List.mem_cons_self _ _)
        refine ⟨e :: pre, e', post, by rw [hsplit]; rfl, hs', ?_, hm'⟩
        simp only [List.map_cons, List.mem_cons, not_or]
        exact ⟨hne, hp⟩

/-- **C1**: `analyze_relationships` emits at most one record per unordered
user pair — the emitted records have pairwise distinct canonical pair keys
— and each emitted record is produced by the first edge (in iteration
order) bearing its pair key, so the first-seen direction determines the
record even when both directions or duplicate edges are present. -/
theorem analyze_relationships_once_per_pair (users : List UserSnapshot)
    (gc : GlobalContext) :
    (analyze_relationships users gc).Pairwise
      (fun r₁ r₂ => pair_key r₁.source_user r₁.target_user
        ≠ pair_key r₂.source_user r₂.target_user)
  ∧ ∀ r ∈ analyze_relationships users gc,
      ∃ pre e post, edges_of users = pre ++ e :: post
        ∧ pair_key e.1 e.2.target_id ∉ pre.map (fun x => pair_key x.1 x.2.target_id)
        ∧ mkRecord gc (user_locs_of users) e = some r := by
  constructor
  · exact analyze_aux_pairwise gc (user_locs_of users) (edges_of users) []
  · intro r hr
    obtain ⟨pre, e, post, h1, _, h3, h4⟩ :=
      analyze_aux_first_seen gc (user_locs_of users) (edges_of users) [] r hr
    exact ⟨pre, e, post, h1, h3, h4⟩

/-- Witness for C1: two users with edges in both directions and different
statuses; the single emitted record comes from the first-seen
`A → B` edge. -/
theorem analyze_relationships_once_per_pair_witness :
    ∃ pre e post,
      edges_of
          [⟨"user_a", "FREE", "LOW", [], none, [⟨"user_b", "CRITICAL_DISCONNECT", "Friend"⟩]⟩,
           ⟨"user_b", "FREE", "LOW", [], none, [⟨"user_a", "GOOD", "Friend"⟩]⟩]
        = pre ++ e :: post
      ∧ pair_key e.1 e.2.target_id ∉ pre.map (fun x => pair_key x.1 x.2.target_id)
      ∧ mkRecord ⟨"OPTIMAL", "LOW_FRICTION", "UNKNOWN", "ok"⟩
          (user_locs_of
            [⟨"user_a", "FREE", "LOW", [], none, [⟨"user_b", "CRITICAL_DISCONNECT", "Friend"⟩]⟩,
             ⟨"user_b", "FREE", "LOW", [], none, [⟨"user_a", "GOOD", "Friend"⟩]⟩]) e
        = some ⟨"user_a", "user_b", "FRIEND", "CRITICAL_DISCONNECT", "UNKNOWN",
            "Critical Disconnect detected."⟩ :=
  (analyze_relationships_once_per_pair
      [⟨"user_a", "FREE", "LOW", [], none, [⟨"user_b", "CRITICAL_DISCONNECT", "Friend"⟩]⟩,
       ⟨"user_b", "FREE", "LOW", [], none, [⟨"user_a", "GOOD", "Friend"⟩]⟩]
      ⟨"OPTIMAL", "LOW_FRICTION", "UNKNOWN", "ok"⟩).2
    ⟨"user_a", "user_b", "FRIEND", "CRITICAL_DISCONNECT", "UNKNOWN",
      "Critical Disconnect detected."⟩
    (by decide)

/-- **C9**: a relation whose target id matches no user (or with a missing
endpoint location) gets proximity `UNKNOWN`; a `CRITICAL_DISCONNECT`
relation to such a target still emits a record with
`proximity_opportunity = UNKNOWN` and the generic hint, while a `GOOD`
relation to such a target emits no record. -/
theorem unknown_target_proximity (users : List UserSnapshot)
    (gc : GlobalContext) (src : String) (rel : Relation)
    (h : ∀ u ∈ users, u.user_id ≠ rel.target_id) :
    calculate_proximity_category (user_locs_of users src)
        (user_locs_of users rel.target_id) = "UNKNOWN"
  ∧ (rel.status = "CRITICAL_DISCONNECT" →
      ∃ r, mkRecord gc (user_locs_of users) (src, rel) = some r
        ∧ r.proximity_opportunity = "UNKNOWN"
        ∧ r.scout_hint = "Critical Disconnect detected.")
  ∧ (rel.status = "GOOD" →
      mkRecord gc (user_locs_of users) (src, rel) = none)
  ∧ (∀ la lb : Option Location, la = none ∨ lb = none →
      calculate_proximity_category la lb = "UNKNOWN") := by
  have hnone : user_locs_of users rel.target_id = none := by
    unfold user_locs_of
    have hfil : users.filter (fun u => decide (u.user_id = rel.target_id)) = [] := by
      rw [List.filter_eq_nil_iff]
      intro u hu
      simp [h u hu]
    rw [hfil]
    rfl
  have hpx : calculate_proximity_category (user_locs_of users src)
      (user_locs_of users rel.target_id) = "UNKNOWN" := by
    rw [hnone]
    unfold calculate_proximity_category
    cases user_locs_of users src <;> rfl
  refine ⟨hpx, fun hcd => ?_, fun hg => ?_, fun la lb hl => ?_⟩
  · simp only [mkRecord, hcd, hpx, if_true, reduceIte]
    refine ⟨_, rfl, rfl, ?_⟩
    simp
  · simp only [mkRecord, hg, hpx]
    simp
  · rcases hl with rfl | rfl
    · rfl
    · unfold calculate_proximity_category
      cases la <;> rfl

/-- Witness for C9: an empty user list makes every target unknown; a `GOOD`
relation to it emits nothing. -/
theorem unknown_target_proximity_witness :
    (∀ u ∈ ([] : List UserSnapshot), u.user_id ≠ "user_ghost")
  ∧ mkRecord ⟨"OPTIMAL", "LOW_FRICTION", "UNKNOWN", "ok"⟩ (user_locs_of [])
      ("user_a", ⟨"user_ghost", "GOOD", "Friend"⟩) = none :=
  ⟨by simp,
   (unknown_target_proximity [] ⟨"OPTIMAL", "LOW_FRICTION", "UNKNOWN", "ok"⟩
      "user_a" ⟨"user_ghost", "GOOD", "Friend"⟩ (by simp)).2.2.1 rfl⟩

/-- **C8** counterexample: the kinship folding does *not* apply to
opportunity-class records.  A `GOOD` relation labelled `Son` between two
users at walking distance emits a record whose `relationship_type` is
`SON`, although the canonicalization of `Son` is `PARENT_CHILD`. -/
theorem opportunity_kind_not_folded_counterexample :
    (analyze_relationships
        [⟨"user_a", "FREE", "LOW", [], some ⟨"A", 48, 11⟩,
            [⟨"user_b", "GOOD", "Son"⟩]⟩,
         ⟨"user_b", "FREE", "LOW", [], some ⟨"B", 48 + 1 / 200, 11 + 1 / 200⟩, []⟩]
        ⟨"OPTIMAL", "LOW_FRICTION", "UNKNOWN", "ok"⟩).map
        FrictionRecord.relationship_type = ["SON"]
  ∧ "SON" ≠ "PARENT_CHILD"
  ∧ canonicalize_relation_kind "Son" = "PARENT_CHILD" := by
  refine ⟨?_, by decide, by decide⟩
  with_unfolding_all decide

/-- **C8 (amended)**: the kinship-folding canonicalization is applied only
to disconnect-class records; opportunity-class (`HEALTHY`) records carry
the relation kind upper-cased without folding. -/
theorem relation_kind_canonicalization (gc : GlobalContext)
    (locs : String → Option Location) (e : String × Relation)
    (r : FrictionRecord) (h : mkRecord gc locs e = some r) :
    (r.connection_health = "CRITICAL_DISCONNECT" →
      r.relationship_type = canonicalize_relation_kind e.2.relation)
  ∧ (r.connection_health = "HEALTHY" →
      r.relationship_type = strToUpper e.2.relation) := by
  simp only [mkRecord] at h
  split at h
  · obtain rfl := Option.some.inj h
    exact ⟨fun _ => rfl, fun hc => by simp at hc⟩
  · split at h
    · split at h
      · obtain rfl := Option.some.inj h
        exact ⟨fun hc => by simp at hc, fun _ => rfl⟩
      · exact absurd h (by simp)
    · exact absurd h (by simp)

/-- Witness for C8 (amended): a `CRITICAL_DISCONNECT` edge labelled `Son`
gets the folded kind `PARENT_CHILD`. -/
theorem relation_kind_canonicalization_witness :
    (⟨"user_a", "user_b", "PARENT_CHILD", "CRITICAL_DISCONNECT", "UNKNOWN",
        "Critical Disconnect detected."⟩ : FrictionRecord).connection_health
      = "CRITICAL_DISCONNECT"
  ∧ (⟨"user_a", "user_b", "PARENT_CHILD", "CRITICAL_DISCONNECT", "UNKNOWN",
        "Critical Disconnect detected."⟩ : FrictionRecord).relationship_type
      = canonicalize_relation_kind "Son" :=
  ⟨rfl,
   (relation_kind_canonicalization ⟨"OPTIMAL", "LOW_FRICTION", "UNKNOWN", "ok"⟩
      (fun _ => none) ("user_a", ⟨"user_b", "CRITICAL_DISCONNECT", "Son"⟩)
      ⟨"user_a", "user_b", "PARENT_CHILD", "CRITICAL_DISCONNECT", "UNKNOWN",
        "Critical Disconnect detected."⟩
      (by decide)).1 rfl⟩

/-- **C2** counterexample: two users whose coordinates differ by `0.0005°`
in both latitude and longitude are only ≈ 78 m apart, which is *below* the
0.2 km `CO_LOCATED` threshold — the proximity category is `CO_LOCATED`,
not `WALKING_DISTANCE`, and a `GOOD` relation between them emits no
record at all. -/
theorem proximity_50m_counterexample :
    calculate_proximity_category (some ⟨"A", 48, 11⟩)
        (some ⟨"B", 48 + 1 / 2000, 11 + 1 / 2000⟩) = "CO_LOCATED"
  ∧ "CO_LOCATED" ≠ "WALKING_DISTANCE"
  ∧ analyze_relationships
        [⟨"user_a", "FREE", "LOW", [], some ⟨"A", 48, 11⟩,
            [⟨"user_b", "GOOD", "Friend"⟩]⟩,
         ⟨"user_b", "FREE", "LOW", [], some ⟨"B", 48 + 1 / 2000, 11 + 1 / 2000⟩, []⟩]
        ⟨"OPTIMAL", "LOW_FRICTION", "UNKNOWN", "ok"⟩ = [] := by
  refine ⟨?_, by decide, ?_⟩ <;> with_unfolding_all decide

/-- **C2 (amended)**: at `0.0005°` offsets the pair is `CO_LOCATED`: a
`GOOD` relation emits nothing, and a `CRITICAL_DISCONNECT` relation emits a
disconnect record with the generic hint.  The behaviour the claim
describes needs offsets of about `0.005°` (≈ 785 m): there the proximity is
`WALKING_DISTANCE`, a `GOOD` relation emits an opportunity-class
(`HEALTHY`) record, and a `CRITICAL_DISCONNECT` relation emits a
disconnect record with the "nearby" hint variant. -/
theorem proximity_example_amended :
    analyze_relationships
        [⟨"user_a", "FREE", "LOW", [], some ⟨"A", 48, 11⟩,
            [⟨"user_b", "CRITICAL_DISCONNECT", "Friend"⟩]⟩,
         ⟨"user_b", "FREE", "LOW", [], some ⟨"B", 48 + 1 / 2000, 11 + 1 / 2000⟩, []⟩]
        ⟨"OPTIMAL", "LOW_FRICTION", "UNKNOWN", "ok"⟩
      = [⟨"user_a", "user_b", "FRIEND", "CRITICAL_DISCONNECT", "CO_LOCATED",
          "Critical Disconnect detected."⟩]
  ∧ calculate_proximity_category (some ⟨"A", 48, 11⟩)
        (some ⟨"B", 48 + 1 / 200, 11 + 1 / 200⟩) = "WALKING_DISTANCE"
  ∧ analyze_relationships
        [⟨"user_a", "FREE", "LOW", [], some ⟨"A", 48, 11⟩,
            [⟨"user_b", "GOOD", "Friend"⟩]⟩,
         ⟨"user_b", "FREE", "LOW", [], some ⟨"B", 48 + 1 / 200, 11 + 1 / 200⟩, []⟩]
        ⟨"OPTIMAL", "LOW_FRICTION", "UNKNOWN", "ok"⟩
      = [⟨"user_a", "user_b", "FRIEND", "HEALTHY", "WALKING_DISTANCE",
          "Healthy connection + nearby + \x27OPTIMAL\x27 weather = Suggest local indoor hangout."⟩]
  ∧ analyze_relationships
        [⟨"user_a", "FREE", "LOW", [], some ⟨"A", 48, 11⟩,
            [⟨"user_b", "CRITICAL_DISCONNECT", "Friend"⟩]⟩,
         ⟨"user_b", "FREE", "LOW", [], some ⟨"B", 48 + 1 / 200, 11 + 1 / 200⟩, []⟩]
        ⟨"OPTIMAL", "LOW_FRICTION", "UNKNOWN", "ok"⟩
      = [⟨"user_a", "user_b", "FRIEND", "CRITICAL_DISCONNECT", "WALKING_DISTANCE",
          "Nearby + Disconnected = Suggest immediate meetup."⟩] := by
  refine ⟨?_, ?_, ?_, ?_⟩ <;> with_unfolding_all decide

/-- An entry of `dict_insert d k v` is an entry of `d` or carries the
inserted value `v`. -/
theorem dict_insert_mem {d : List (String × String)} {k v : String}
    {p : String × String} (h : p ∈ dict_insert d k v) : p ∈ d ∨ p.2 = v := by
  unfold dict_insert at h
  split at h
  · obtain ⟨q, hq, hpq⟩ := List.mem_map.mp h
    by_cases hk : q.1 = k
    · right
      rw [← hpq]
      simp [hk]
    · left
      rw [← hpq]
      simp only [if_neg hk]
      exact hq
  · rcases List.mem_append.mp h with h' | h'
    · exact Or.inl h'
    · right
      simp only [List.mem_singleton] at h'
      rw [h']
  -- the overwrite branch updates every entry with key `k`; the append
  -- branch adds `(k, v)` at the end

/-- Every value in the folded suitability dict satisfies a predicate that
holds of the seed values and of every user's score. -/
theorem suitability_fold_values (event : EventItem) (P : String → Prop) :
    ∀ (l : List UserClassification) (d : List (String × String)),
      (∀ p ∈ d, P p.2) → (∀ u ∈ l, P (score_user event u)) →
      ∀ p ∈ l.foldl (fun d u => dict_insert d u.user_id (score_user event u)) d,
        P p.2 := by
  intro l
  induction l with
  | nil => intro d hd _ p hp; exact hd p hp
  | cons u rest ih =>
    intro d hd hl p hp
    simp only [List.foldl_cons] at hp
    refine ih _ ?_ (fun v hv => hl v (List.mem_cons_of_mem _ hv)) p hp
    intro q hq
    rcases dict_insert_mem hq with h' | h'
    · exact hd q h'
    · rw [h']
      exact hl u (List.mem_cons_self _ _)

/-- **C6**: every curated record's suitability map is `LOW`-free (so the
absence of a user id means `LOW`), and an event for which every user
scores `LOW` still appears in the output — one record per input event —
with an empty suitability map. -/
theorem curated_suitability_sparse (events : List EventItem)
    (gc : GlobalContext) (users_map : List UserClassification) :
    (curate_opportunities events gc users_map).length = events.length
  ∧ (∀ rec ∈ curate_opportunities events gc users_map,
      ∀ p ∈ rec.suitability, p.2 ≠ "LOW")
  ∧ (∀ event ∈ events,
      (∀ u ∈ users_map, score_user event u = "LOW") →
      ∃ rec ∈ curate_opportunities events gc users_map,
        rec.event_id = event.identifier ∧ rec.suitability = []) := by
  refine ⟨List.length_map _ _, ?_, ?_⟩
  · intro rec hrec p hp
    obtain ⟨ev, _, rfl⟩ := List.mem_map.mp hrec
    have hp' : p ∈ (build_suitability ev users_map).filter
        (fun q => decide (q.2 ≠ "LOW")) := hp
    exact of_decide_eq_true (List.mem_filter.mp hp').2
  · intro ev hev hall
    refine ⟨curate_one gc users_map ev, List.mem_map_of_mem _ hev, rfl, ?_⟩
    show (build_suitability ev users_map).filter (fun q => decide (q.2 ≠ "LOW")) = []
    rw [List.filter_eq_nil_iff]
    intro p hp
    have hlow : p.2 = "LOW" :=
      suitability_fold_values ev (fun s => s = "LOW") users_map []
        (by simp) hall p hp
    simp [hlow]

/-- Witness for C6: a `MusicEvent` whose only candidate user scores `LOW`
still yields a curated record, with an empty suitability map. -/
theorem curated_suitability_sparse_witness :
    (∀ u ∈ [(⟨"u_w6", "AVAILABLE_NOW", "MAINTENANCE", "HOME_BASE", "N"⟩ :
        UserClassification)],
      score_user ⟨"e1", "Jazz Night", "MusicEvent", "Live jazz", none⟩ u = "LOW")
  ∧ ∃ rec ∈ curate_opportunities
        [⟨"e1", "Jazz Night", "MusicEvent", "Live jazz", none⟩]
        ⟨"OPTIMAL", "LOW_FRICTION", "UNKNOWN", "ok"⟩
        [⟨"u_w6", "AVAILABLE_NOW", "MAINTENANCE", "HOME_BASE", "N"⟩],
      rec.event_id = "e1" ∧ rec.suitability = [] :=
  ⟨by decide,
   (curated_suitability_sparse
      [⟨"e1", "Jazz Night", "MusicEvent", "Live jazz", none⟩]
      ⟨"OPTIMAL", "LOW_FRICTION", "UNKNOWN", "ok"⟩
      [⟨"u_w6", "AVAILABLE_NOW", "MAINTENANCE", "HOME_BASE", "N"⟩]).2.2
     ⟨"e1", "Jazz Night", "MusicEvent", "Live jazz", none⟩
     (by decide) (by decide)⟩

end Scout
